import Mathlib

/-!
Verification of the aml↔wayland event-loop bridge
(`src/libweston/backend-vnc/aml-wl-backend.c`).

The inner loop is aml: its watchable objects (fd handlers, signal
watchers) carry poll-style readiness bits.  The host loop is the
wayland event loop: its readiness bits are the `WL_EVENT_*` flags.
The bridge registers every aml watcher with the wayland loop and
relays readiness notifications back into aml.

Machine integers are modelled as `Nat` bit masks; the two translation
functions only ever set the low bits, so no overflow arises.  The
stateful part of the bridge (allocation of `event_source_data`
entries, the watcher's backend-data slot, the wayland loop's
registrations, emissions and dispatch passes) is modelled as explicit
state passing over a `World` record; fallible external primitives
(`calloc`, `wl_event_loop_add_fd`, …) take an explicit success flag
and return an `Option`/status, mirroring the C return conventions.
-/

namespace AmlWl

/-! ### Bit constants

Values of the poll(2) flags on Linux and of the `WL_EVENT_*` flags
from `wayland-server-core.h`. -/

def POLLIN : Nat := 1
def POLLPRI : Nat := 2
def POLLOUT : Nat := 4
def POLLERR : Nat := 8
def POLLHUP : Nat := 16
def POLLNVAL : Nat := 32

def WL_EVENT_READABLE : Nat := 1
def WL_EVENT_WRITABLE : Nat := 2
def WL_EVENT_HANGUP : Nat := 4
def WL_EVENT_ERROR : Nat := 8

/-! ### Mask translator -/

/-- `wl_backend_events_from_poll_events` (aml-wl-backend.c:74–82):
translate aml's poll-style readiness bits into wayland `WL_EVENT_*`
bits.  Only `POLLIN` and `POLLOUT` are translated. -/
def wl_backend_events_from_poll_events (i : Nat) : Nat :=
  let out : Nat := 0
  let out := if i &&& POLLIN ≠ 0 then out ||| WL_EVENT_READABLE else out
  let out := if i &&& POLLOUT ≠ 0 then out ||| WL_EVENT_WRITABLE else out
  out

/-- `wl_backend_events_to_poll_events` (aml-wl-backend.c:84–92):
translate wayland `WL_EVENT_*` readiness bits into aml's poll-style
bits.  Only `WL_EVENT_READABLE` and `WL_EVENT_WRITABLE` are
translated. -/
def wl_backend_events_to_poll_events (i : Nat) : Nat :=
  let out : Nat := 0
  let out := if i &&& WL_EVENT_READABLE ≠ 0 then out ||| POLLIN else out
  let out := if i &&& WL_EVENT_WRITABLE ≠ 0 then out ||| POLLOUT else out
  out

/-! ### Stateful model

The bridge manipulates four kinds of state:
* aml watcher objects (fd handlers and signal watchers), owned by the
  inner loop; the bridge only reads their fd / event mask / signal
  number and attaches its backend data to them;
* heap-allocated `event_source_data` entries (the bridge entries);
* the wayland event loop's registrations (`wl_event_source`s);
* the observable effects on the inner loop: emissions and dispatch
  passes.
All of it is collected in one `World` record, threaded explicitly.
Pointers are modelled as `Nat` identifiers into association lists. -/

/-- An aml fd handler as seen by the bridge: `aml_get_fd` and
`aml_get_event_mask` (poll-style bits) read these fields. -/
structure Handler where
  fd : Nat
  eventMask : Nat
  deriving DecidableEq, Repr, Inhabited

/-- `struct event_source_data` (aml-wl-backend.c:45–49): the bridge
entry.  `aml_obj` and `state` are non-owning back-references (to the
watcher and the backend state); `src` is the owned wayland
registration handle, `none` until the registration succeeds
(`calloc(1, …)` zero-fills it). -/
structure event_source_data where
  aml_obj : Nat
  state : Nat
  src : Option Nat
  deriving DecidableEq, Repr, Inhabited

/-- A registration recorded inside the wayland event loop: either an
fd registration with its current `WL_EVENT_*` interest mask, or a
signal registration. -/
inductive HostReg where
  | fdReg (fd : Nat) (mask : Nat)
  | sigReg (signo : Nat)
  deriving DecidableEq, Repr, Inhabited

/-- Association-list lookup by `Nat` key (first match). -/
def alookup {α : Type} (l : List (Nat × α)) (k : Nat) : Option α :=
  match l with
  | [] => none
  | (k2, v) :: rest => if k2 = k then some v else alookup rest k

/-- Update the first entry with key `k` in place. -/
def aupdate {α : Type} (l : List (Nat × α)) (k : Nat) (f : α → α) : List (Nat × α) :=
  match l with
  | [] => []
  | (k2, v) :: rest => if k2 = k then (k2, f v) :: rest else (k2, v) :: aupdate rest k f

/-- Remove the first entry with key `k`. -/
def aerase {α : Type} (l : List (Nat × α)) (k : Nat) : List (Nat × α) :=
  match l with
  | [] => []
  | (k2, v) :: rest => if k2 = k then rest else (k2, v) :: aerase rest k

/-- The whole observable state the bridge acts on.  `handlers` and
`signals` are the inner loop's watcher objects (id ↦ object);
`backendData` models each watcher's opaque backend-private slot
(id ↦ entry id); `entries` are the live heap-allocated
`event_source_data` objects; `hostRegs` are the wayland loop's live
registrations (handle ↦ registration); `emits` and `dispatchCount`
record the inner-loop effects `aml_emit` / `aml_dispatch`. -/
structure World where
  handlers : List (Nat × Handler)
  signals : List (Nat × Nat)
  backendData : List (Nat × Nat)
  entries : List (Nat × event_source_data)
  hostRegs : List (Nat × HostReg)
  nextEntry : Nat
  nextSrc : Nat
  emits : List (Nat × Nat)
  dispatchCount : Nat
  deriving DecidableEq, Repr, Inhabited

/-! External primitives consumed by the bridge (spec §6).  They are
not part of this repository; they are modelled by their documented
contracts: the aml accessors read watcher fields, `aml_emit` /
`aml_dispatch` append to the effect trace, and the wayland primitives
register/update/remove entries of `hostRegs`, with an explicit `ok`
flag standing for whether the fallible call succeeds. -/

/-- `aml_get_fd(handler)`. -/
def aml_get_fd (w : World) (h : Nat) : Nat :=
  ((alookup w.handlers h).getD default).fd

/-- `aml_get_event_mask(handler)`: the watcher's poll-style interest
mask. -/
def aml_get_event_mask (w : World) (h : Nat) : Nat :=
  ((alookup w.handlers h).getD default).eventMask

/-- `aml_get_signo(sig)`. -/
def aml_get_signo (w : World) (s : Nat) : Nat :=
  (alookup w.signals s).getD 0

/-- `aml_set_backend_data(obj, data)`: attach entry id `e` to watcher
`obj`'s backend-private slot. -/
def aml_set_backend_data (w : World) (obj e : Nat) : World :=
  { w with backendData := (obj, e) :: w.backendData }

/-- `aml_get_backend_data(obj)`. -/
def aml_get_backend_data (w : World) (obj : Nat) : Option Nat :=
  alookup w.backendData obj

/-- `aml_emit(aml, obj, revents)`: record one targeted emission. -/
def aml_emit (w : World) (obj revents : Nat) : World :=
  { w with emits := w.emits ++ [(obj, revents)] }

/-- `aml_dispatch(aml)`: record one dispatch pass of the inner loop. -/
def aml_dispatch (w : World) : World :=
  { w with dispatchCount := w.dispatchCount + 1 }

/-- The inner loop changing a handler's interest mask (this is what
makes a later `mod_fd` observable). -/
def aml_set_event_mask (w : World) (h m : Nat) : World :=
  { w with handlers := aupdate w.handlers h (fun hd => { hd with eventMask := m }) }

/-- `wl_event_loop_add_fd(loop, fd, mask, cb, ctx)`: on success
(`ok`), record a new fd registration and return its handle; on
failure return `none` (NULL) and change nothing. -/
def wl_event_loop_add_fd (ok : Bool) (w : World) (fd mask : Nat) : World × Option Nat :=
  if ok then
    ({ w with hostRegs := (w.nextSrc, HostReg.fdReg fd mask) :: w.hostRegs,
              nextSrc := w.nextSrc + 1 }, some w.nextSrc)
  else (w, none)

/-- `wl_event_loop_add_signal(loop, signo, cb, ctx)`. -/
def wl_event_loop_add_signal (ok : Bool) (w : World) (signo : Nat) : World × Option Nat :=
  if ok then
    ({ w with hostRegs := (w.nextSrc, HostReg.sigReg signo) :: w.hostRegs,
              nextSrc := w.nextSrc + 1 }, some w.nextSrc)
  else (w, none)

/-- `wl_event_source_fd_update(src, mask)`: on success update the
registration's interest mask in place and return 0; on failure return
-1 and change nothing. -/
def wl_event_source_fd_update (ok : Bool) (w : World) (src mask : Nat) : World × Int :=
  let setMask : HostReg → HostReg := fun r =>
    match r with
    | HostReg.fdReg fd _ => HostReg.fdReg fd mask
    | other => other
  if ok then
    ({ w with hostRegs := aupdate w.hostRegs src setMask }, 0)
  else (w, -1)

/-- `wl_event_source_remove(src)`: unregister from the wayland loop
(always returns 0). -/
def wl_event_source_remove (w : World) (src : Nat) : World × Int :=
  ({ w with hostRegs := aerase w.hostRegs src }, 0)

/-- `free(data)` on a bridge entry. -/
def free_event_source_data (w : World) (e : Nat) : World :=
  { w with entries := aerase w.entries e }

/-! ### The bridge operations (aml-wl-backend.c) -/

/-- `event_source_data_new(obj, state)` (aml-wl-backend.c:105–116):
`calloc` a bridge entry (so `src` starts `NULL`), set the two
back-references, and return it; on allocation failure (`allocOk =
false`) return `none` (NULL) and change nothing. -/
def event_source_data_new (allocOk : Bool) (w : World) (obj st : Nat) :
    World × Option Nat :=
  if allocOk then
    ({ w with entries := (w.nextEntry, ⟨obj, st, none⟩) :: w.entries,
              nextEntry := w.nextEntry + 1 }, some w.nextEntry)
  else (w, none)

/-- `wl_backend_add_fd(state, handler)` (aml-wl-backend.c:118–143):
read the fd and interest mask from the handler, translate the mask,
allocate a bridge entry, register the fd with the wayland loop; on
registration failure free the entry and return -1; on success store
the registration handle in the entry, attach the entry to the
handler's backend-data slot, and return 0. -/
def wl_backend_add_fd (allocOk regOk : Bool) (w : World) (st h : Nat) :
    World × Int :=
  let fd := aml_get_fd w h
  let aml_event_mask := aml_get_event_mask w h
  let events := wl_backend_events_from_poll_events aml_event_mask
  match event_source_data_new allocOk w h st with
  | (w1, none) => (w1, -1)
  | (w1, some e) =>
    match wl_event_loop_add_fd regOk w1 fd events with
    | (w2, none) => (free_event_source_data w2 e, -1)
    | (w2, some srcId) =>
      let w3 := { w2 with
        entries := aupdate w2.entries e (fun d => { d with src := some srcId }) }
      (aml_set_backend_data w3 h e, 0)

/-- `wl_backend_mod_fd(state, handler)` (aml-wl-backend.c:145–152):
fetch the bridge entry from the handler's backend-data slot, re-read
and translate the current interest mask, call
`wl_event_source_fd_update` on the stored registration handle, and
return 0 — the update primitive's own status is discarded. -/
def wl_backend_mod_fd (updOk : Bool) (w : World) (h : Nat) : World × Int :=
  let e := (aml_get_backend_data w h).getD 0
  let data := (alookup w.entries e).getD default
  let aml_event_mask := aml_get_event_mask w h
  let wl_mask := wl_backend_events_from_poll_events aml_event_mask
  let w1 := (wl_event_source_fd_update updOk w (data.src.getD 0) wl_mask).1
  (w1, 0)

/-- `wl_backend_del_fd(state, handler)` (aml-wl-backend.c:154–160):
fetch the bridge entry, remove the wayland registration, free the
entry, and return 0.  Note: the handler's backend-data slot is NOT
cleared. -/
def wl_backend_del_fd (w : World) (h : Nat) : World × Int :=
  let e := (aml_get_backend_data w h).getD 0
  let data := (alookup w.entries e).getD default
  let w1 := (wl_event_source_remove w (data.src.getD 0)).1
  (free_event_source_data w1 e, 0)

/-- `wl_backend_on_fd_event(fd, mask, userdata)`
(aml-wl-backend.c:94–103): the fd relay.  Translate the wayland
readiness bits to poll bits, emit them on the entry's watcher, run one
dispatch pass, return 0. -/
def wl_backend_on_fd_event (w : World) (fd mask e : Nat) : World × Int :=
  let data := (alookup w.entries e).getD default
  let revents := wl_backend_events_to_poll_events mask
  let w1 := aml_emit w data.aml_obj revents
  (aml_dispatch w1, 0)

/-- `wl_backend_on_signal(signo, userdata)` (aml-wl-backend.c:162–170):
the signal relay.  Emit mask 0 on the entry's watcher, run one
dispatch pass, return 0. -/
def wl_backend_on_signal (w : World) (signo e : Nat) : World × Int :=
  let data := (alookup w.entries e).getD default
  let w1 := aml_emit w data.aml_obj 0
  (aml_dispatch w1, 0)

/-- `wl_backend_add_signal(state, sig)` (aml-wl-backend.c:172–195):
like `wl_backend_add_fd` but keyed by signal number, with no interest
mask. -/
def wl_backend_add_signal (allocOk regOk : Bool) (w : World) (st s : Nat) :
    World × Int :=
  let signo := aml_get_signo w s
  match event_source_data_new allocOk w s st with
  | (w1, none) => (w1, -1)
  | (w1, some e) =>
    match wl_event_loop_add_signal regOk w1 signo with
    | (w2, none) => (free_event_source_data w2 e, -1)
    | (w2, some srcId) =>
      let w3 := { w2 with
        entries := aupdate w2.entries e (fun d => { d with src := some srcId }) }
      (aml_set_backend_data w3 s e, 0)

/-- `wl_backend_del_signal(state, sig)` (aml-wl-backend.c:197–203):
identical to `wl_backend_del_fd`. -/
def wl_backend_del_signal (w : World) (s : Nat) : World × Int :=
  let e := (aml_get_backend_data w s).getD 0
  let data := (alookup w.entries e).getD default
  let w1 := (wl_event_source_remove w (data.src.getD 0)).1
  (free_event_source_data w1 e, 0)

/-! ### Backend state and the process-wide loop handle -/

/-- `struct wl_backend_state` (aml-wl-backend.c:40–43): the backend
state holds the aml instance and the wayland loop.  The loop field is
an `Option` because the global it is copied from starts out NULL. -/
structure wl_backend_state where
  aml : Nat
  loop : Option Nat
  deriving DecidableEq, Repr

/-- The process-wide mutable state: the single `static struct
wl_event_loop* wl_loop` variable (aml-wl-backend.c:51), initially
NULL. -/
structure WlGlobal where
  wl_loop : Option Nat
  deriving DecidableEq, Repr

/-- `aml_wl_loop_init(loop)` (aml-wl-backend.c:217–222): store `loop`
in the process-wide `wl_loop` variable (the subsequent `aml_new` call
is external to this file's scope: it eventually invokes
`wl_backend_new_state`). -/
def aml_wl_loop_init (g : WlGlobal) (loop : Nat) : WlGlobal :=
  { wl_loop := some loop }

/-- `wl_backend_new_state(aml)` (aml-wl-backend.c:53–63): allocate the
backend state (failure gives NULL) and fill it from the `aml`
argument and the current value of the global `wl_loop` — the host
loop is not a parameter. -/
def wl_backend_new_state (allocOk : Bool) (g : WlGlobal) (aml : Nat) :
    Option wl_backend_state :=
  if allocOk then some { aml := aml, loop := g.wl_loop } else none


/-- A small concrete world used by witnesses and counterexamples:
one fd handler (id 0, fd 7, interest `POLLIN`) and one signal watcher
(id 1, signal number 2); nothing registered yet. -/
def sampleWorld : World :=
  { handlers := [(0, { fd := 7, eventMask := POLLIN })],
    signals := [(1, 2)],
    backendData := [],
    entries := [],
    hostRegs := [],
    nextEntry := 0,
    nextSrc := 0,
    emits := [],
    dispatchCount := 0 }

/-! ### Helper lemmas -/

/-- A `Nat` whose bits are among `m` is at most `m`. -/
theorem masked_le (x m : Nat) (h : x &&& m = x) : x ≤ m :=
  h ▸ Nat.and_le_right

@[simp]
theorem alookup_cons_self {α : Type} (k : Nat) (v : α) (l : List (Nat × α)) :
    alookup ((k, v) :: l) k = some v := by
  simp [alookup]

@[simp]
theorem aupdate_cons_self {α : Type} (k : Nat) (v : α) (f : α → α) (l : List (Nat × α)) :
    aupdate ((k, v) :: l) k f = (k, f v) :: l := by
  simp [aupdate]

@[simp]
theorem aerase_cons_self {α : Type} (k : Nat) (v : α) (l : List (Nat × α)) :
    aerase ((k, v) :: l) k = l := by
  simp [aerase]

/-- Updating a key then looking it up sees the update. -/
theorem alookup_aupdate {α : Type} (l : List (Nat × α)) (k : Nat) (f : α → α) :
    alookup (aupdate l k f) k = (alookup l k).map f := by
  induction l with
  | nil => rfl
  | cons p rest ih =>
    obtain ⟨k2, v⟩ := p
    by_cases h : k2 = k
    · subst h; simp [aupdate, alookup]
    · simp [aupdate, alookup, h, ih]

/-- In-place update does not change the number of registrations. -/
theorem aupdate_length {α : Type} (l : List (Nat × α)) (k : Nat) (f : α → α) :
    (aupdate l k f).length = l.length := by
  induction l with
  | nil => rfl
  | cons p rest ih =>
    obtain ⟨k2, v⟩ := p
    by_cases h : k2 = k <;> simp [aupdate, h, ih]

/-! ### Claim theorems -/

example : wl_backend_events_from_poll_events (POLLIN ||| POLLOUT) =
    (WL_EVENT_READABLE ||| WL_EVENT_WRITABLE) := by decide

example : wl_backend_events_to_poll_events WL_EVENT_READABLE = POLLIN := by decide

example : wl_backend_events_from_poll_events (POLLIN ||| POLLERR ||| POLLHUP) =
    WL_EVENT_READABLE := by decide

/-- CLAIM C1: the two mask-translation functions are exact inverses on
the two defined bits: for every wayland mask `x` containing only
`WL_EVENT_READABLE` and `WL_EVENT_WRITABLE`,
`from_poll (to_poll x) = x`, and for every poll mask `y` containing
only `POLLIN` and `POLLOUT`, `to_poll (from_poll y) = y`. -/
theorem mask_translation_roundtrip (x y : Nat)
    (hx : x &&& (WL_EVENT_READABLE ||| WL_EVENT_WRITABLE) = x)
    (hy : y &&& (POLLIN ||| POLLOUT) = y) :
    wl_backend_events_from_poll_events (wl_backend_events_to_poll_events x) = x ∧
    wl_backend_events_to_poll_events (wl_backend_events_from_poll_events y) = y := by
  have hx3 : x ≤ 3 := masked_le x 3 hx
  have hy5 : y ≤ 5 := masked_le y 5 hy
  constructor
  · interval_cases x <;> revert hx <;> decide
  · interval_cases y <;> revert hy <;> decide

/-- Witness for C1 at the concrete masks
`x = WL_EVENT_READABLE ||| WL_EVENT_WRITABLE` and
`y = POLLIN ||| POLLOUT`. -/
theorem mask_translation_roundtrip_witness :
    wl_backend_events_from_poll_events (wl_backend_events_to_poll_events 3) = 3 ∧
    wl_backend_events_to_poll_events (wl_backend_events_from_poll_events 5) = 5 :=
  mask_translation_roundtrip 3 5 (by decide) (by decide)

/-- CLAIM C8: bits outside the defined pairs are ignored in both
directions: each translator gives the same answer on `x` and on `x`
restricted to its two defined input bits, and its output contains only
the two defined output bits (no error is possible: the functions are
total). -/
theorem mask_translation_ignores_undefined_bits (x : Nat) :
    wl_backend_events_to_poll_events x =
      wl_backend_events_to_poll_events (x &&& (WL_EVENT_READABLE ||| WL_EVENT_WRITABLE)) ∧
    wl_backend_events_from_poll_events x =
      wl_backend_events_from_poll_events (x &&& (POLLIN ||| POLLOUT)) ∧
    wl_backend_events_to_poll_events x &&& (POLLIN ||| POLLOUT) =
      wl_backend_events_to_poll_events x ∧
    wl_backend_events_from_poll_events x &&& (WL_EVENT_READABLE ||| WL_EVENT_WRITABLE) =
      wl_backend_events_from_poll_events x := by
  have h31 : (x &&& 3) &&& 1 = x &&& 1 := by
    rw [Nat.and_assoc, (by decide : (3 : Nat) &&& 1 = 1)]
  have h32 : (x &&& 3) &&& 2 = x &&& 2 := by
    rw [Nat.and_assoc, (by decide : (3 : Nat) &&& 2 = 2)]
  have h51 : (x &&& 5) &&& 1 = x &&& 1 := by
    rw [Nat.and_assoc, (by decide : (5 : Nat) &&& 1 = 1)]
  have h54 : (x &&& 5) &&& 4 = x &&& 4 := by
    rw [Nat.and_assoc, (by decide : (5 : Nat) &&& 4 = 4)]
  refine ⟨?_, ?_, ?_, ?_⟩
  · simp only [wl_backend_events_to_poll_events, WL_EVENT_READABLE, WL_EVENT_WRITABLE,
      POLLIN, POLLOUT]
    rw [show (1 : Nat) ||| 2 = 3 from rfl, h31, h32]
  · simp only [wl_backend_events_from_poll_events, WL_EVENT_READABLE, WL_EVENT_WRITABLE,
      POLLIN, POLLOUT]
    rw [show (1 : Nat) ||| 4 = 5 from rfl, h51, h54]
  · simp only [wl_backend_events_to_poll_events]
    split <;> split <;> decide
  · simp only [wl_backend_events_from_poll_events]
    split <;> split <;> decide


/-- CLAIM C2, counterexample: the claim says `del_fd` clears the
watcher's backend-private slot, but `wl_backend_del_fd` never calls
`aml_set_backend_data(handler, NULL)`: after `add_fd` then `del_fd`
on watcher 0, the slot still holds the stale entry id 0. -/
theorem del_fd_slot_not_cleared :
    aml_get_backend_data
      (wl_backend_del_fd (wl_backend_add_fd true true sampleWorld 5 0).1 0).1 0 =
        some 0 ∧
    aml_get_backend_data
      (wl_backend_del_fd (wl_backend_add_fd true true sampleWorld 5 0).1 0).1 0 ≠
        none := by
  decide

/-- CLAIM C2 (amended): for every watcher, `del_fd` after `add_fd`
unregisters the owned host registration and frees the BridgeEntry —
the wayland registrations and the live entries return exactly to
their pre-`add_fd` state — but the watcher's backend-private slot is
NOT cleared: it still holds the stale entry id. -/
theorem add_then_del_fd (w : World) (st h : Nat) :
    (wl_backend_del_fd (wl_backend_add_fd true true w st h).1 h).1.entries =
      w.entries ∧
    (wl_backend_del_fd (wl_backend_add_fd true true w st h).1 h).1.hostRegs =
      w.hostRegs ∧
    aml_get_backend_data (wl_backend_del_fd (wl_backend_add_fd true true w st h).1 h).1 h =
      some w.nextEntry ∧
    (wl_backend_del_fd (wl_backend_add_fd true true w st h).1 h).2 = 0 := by
  simp [wl_backend_add_fd, wl_backend_del_fd, event_source_data_new,
    wl_event_loop_add_fd, aml_set_backend_data, aml_get_backend_data,
    free_event_source_data, wl_event_source_remove, aml_get_fd,
    aml_get_event_mask]

/-- CLAIM C3: `add_fd` rolls back on failure.  If the entry
allocation fails, nothing at all has changed and the status is -1.
If the allocation succeeds but the host registration fails, the
allocated entry is freed (the live entries are exactly the original
ones), the status is -1, and the watcher's backend-private slot and
the host registrations are untouched. -/
theorem add_fd_failure_rollback (w : World) (st h : Nat) (b : Bool) :
    wl_backend_add_fd false b w st h = (w, -1) ∧
    (wl_backend_add_fd true false w st h).2 = -1 ∧
    (wl_backend_add_fd true false w st h).1.entries = w.entries ∧
    (wl_backend_add_fd true false w st h).1.backendData = w.backendData ∧
    (wl_backend_add_fd true false w st h).1.hostRegs = w.hostRegs := by
  simp [wl_backend_add_fd, event_source_data_new, wl_event_loop_add_fd,
    free_event_source_data, aml_get_fd, aml_get_event_mask]

/-- CLAIM C4, counterexample: in a state where the host update
primitive reports failure (returns -1), `mod_fd` still returns 0 to
the inner loop — the host failure is silently swallowed, so it is
not true that every lifecycle operation surfaces a failing host
primitive as an error status. -/
theorem mod_fd_swallows_host_failure :
    (wl_event_source_fd_update false
      (wl_backend_add_fd true true sampleWorld 5 0).1 0 0).2 = -1 ∧
    (wl_backend_mod_fd false (wl_backend_add_fd true true sampleWorld 5 0).1 0).2 =
      0 := by
  decide

/-- CLAIM C4 (amended): `add_fd` and `add_signal` do surface a host
registration failure as status -1, but `mod_fd`, `del_fd` and
`del_signal` return 0 unconditionally — `mod_fd` discards the status
of `wl_event_source_fd_update`, so a failing host update is not
reported. -/
theorem lifecycle_status_returns (w : World) (st h s : Nat) (u : Bool) :
    (wl_backend_add_fd true false w st h).2 = -1 ∧
    (wl_backend_add_signal true false w st s).2 = -1 ∧
    (wl_backend_mod_fd u w h).2 = 0 ∧
    (wl_backend_del_fd w h).2 = 0 ∧
    (wl_backend_del_signal w s).2 = 0 := by
  refine ⟨rfl, rfl, rfl, rfl, rfl⟩

/-- CLAIM C9: on every successful `add_fd`, the host registration
handle is stored in the freshly allocated BridgeEntry (whose other
two fields are the non-owning back-references to the watcher and the
backend state), the entry is attached to the watcher's
backend-private slot, the host loop records the translated interest
mask for the watcher's fd, and the call returns 0. -/
theorem add_fd_success_attaches_entry (w : World) (st h : Nat) :
    (wl_backend_add_fd true true w st h).2 = 0 ∧
    alookup (wl_backend_add_fd true true w st h).1.entries w.nextEntry =
      some { aml_obj := h, state := st, src := some w.nextSrc } ∧
    aml_get_backend_data (wl_backend_add_fd true true w st h).1 h =
      some w.nextEntry ∧
    alookup (wl_backend_add_fd true true w st h).1.hostRegs w.nextSrc =
      some (HostReg.fdReg (aml_get_fd w h)
        (wl_backend_events_from_poll_events (aml_get_event_mask w h))) := by
  simp [wl_backend_add_fd, event_source_data_new, wl_event_loop_add_fd,
    aml_set_backend_data, aml_get_backend_data]

/-- CLAIM C10: `wl_backend_new_state` takes only the aml instance —
the host loop is read from the process-wide `wl_loop` variable set by
`aml_wl_loop_init`.  After `aml_wl_loop_init L` every state created
references `L` (the current value of the global), and after a second
`aml_wl_loop_init L2` every state created afterwards references
`L2`. -/
theorem new_state_reads_global (g : WlGlobal) (L L2 a : Nat) :
    wl_backend_new_state true (aml_wl_loop_init g L) a =
      some { aml := a, loop := some L } ∧
    (wl_backend_new_state true (aml_wl_loop_init g L) a).map
        (fun st => st.loop) =
      some (aml_wl_loop_init g L).wl_loop ∧
    wl_backend_new_state true (aml_wl_loop_init (aml_wl_loop_init g L) L2) a =
      some { aml := a, loop := some L2 } :=
  ⟨rfl, rfl, rfl⟩

/-- CLAIM C5: the fd relay invoked with host readiness bits `mask`
and the BridgeEntry `e` of watcher `wid` performs exactly one
emission, on `wid` only, carrying the translated mask
`to_poll mask`, followed by exactly one dispatch pass, and returns 0
to the host loop; nothing else in the world changes (so no other
registered watcher sees an emission).  Moreover host bit
`WL_EVENT_READABLE` translates to exactly `POLLIN`. -/
theorem on_fd_event_single_emission (w : World) (fd mask e wid : Nat)
    (d : event_source_data) (hd : alookup w.entries e = some d)
    (hobj : d.aml_obj = wid) :
    wl_backend_on_fd_event w fd mask e =
      ({ w with emits := w.emits ++ [(wid, wl_backend_events_to_poll_events mask)],
                dispatchCount := w.dispatchCount + 1 }, 0) ∧
    wl_backend_events_to_poll_events WL_EVENT_READABLE = POLLIN := by
  constructor
  · simp [wl_backend_on_fd_event, aml_emit, aml_dispatch, hd, hobj]
  · decide

/-- Witness for C5: after registering watcher 0 of `sampleWorld`, a
host `WL_EVENT_READABLE` notification on its entry yields exactly one
emission `(0, POLLIN)` and one dispatch pass. -/
theorem on_fd_event_single_emission_witness :
    alookup (wl_backend_add_fd true true sampleWorld 5 0).1.entries 0 =
      some { aml_obj := 0, state := 5, src := some 0 } ∧
    (wl_backend_on_fd_event (wl_backend_add_fd true true sampleWorld 5 0).1
        7 WL_EVENT_READABLE 0 =
      ({ (wl_backend_add_fd true true sampleWorld 5 0).1 with
          emits := (wl_backend_add_fd true true sampleWorld 5 0).1.emits ++
            [(0, wl_backend_events_to_poll_events WL_EVENT_READABLE)],
          dispatchCount :=
            (wl_backend_add_fd true true sampleWorld 5 0).1.dispatchCount + 1 },
        0) ∧
      wl_backend_events_to_poll_events WL_EVENT_READABLE = POLLIN) :=
  ⟨by decide,
   on_fd_event_single_emission (wl_backend_add_fd true true sampleWorld 5 0).1
     7 WL_EVENT_READABLE 0 0 { aml_obj := 0, state := 5, src := some 0 }
     (by decide) rfl⟩

/-- CLAIM C6: for a watcher with an attached BridgeEntry (set up by a
successful `add_fd`), `mod_fd` re-reads the watcher's current
interest mask and updates the existing host registration in place:
afterwards the host loop's recorded registration under the original
handle is the watcher's fd with mask `to_host(new_mask)`, while the
live entries, the entry counter, the registration-handle counter and
the number of host registrations are all unchanged (no new
BridgeEntry, no unregister/re-register cycle). -/
theorem mod_fd_updates_registration_in_place (w : World) (st h fd m1 m2 : Nat)
    (hh : alookup w.handlers h = some { fd := fd, eventMask := m1 }) :
    alookup (wl_backend_mod_fd true
        (aml_set_event_mask (wl_backend_add_fd true true w st h).1 h m2) h).1.hostRegs
        w.nextSrc =
      some (HostReg.fdReg fd (wl_backend_events_from_poll_events m2)) ∧
    (wl_backend_mod_fd true
        (aml_set_event_mask (wl_backend_add_fd true true w st h).1 h m2) h).1.entries =
      (wl_backend_add_fd true true w st h).1.entries ∧
    (wl_backend_mod_fd true
        (aml_set_event_mask (wl_backend_add_fd true true w st h).1 h m2) h).1.nextEntry =
      (wl_backend_add_fd true true w st h).1.nextEntry ∧
    (wl_backend_mod_fd true
        (aml_set_event_mask (wl_backend_add_fd true true w st h).1 h m2) h).1.nextSrc =
      (wl_backend_add_fd true true w st h).1.nextSrc ∧
    (wl_backend_mod_fd true
        (aml_set_event_mask (wl_backend_add_fd true true w st h).1 h m2) h).1.hostRegs.length =
      (wl_backend_add_fd true true w st h).1.hostRegs.length := by
  simp [wl_backend_mod_fd, wl_backend_add_fd, aml_set_event_mask,
    event_source_data_new, wl_event_loop_add_fd, aml_set_backend_data,
    aml_get_backend_data, aml_get_fd, aml_get_event_mask,
    wl_event_source_fd_update, alookup_aupdate, aupdate_length, hh]

/-- Witness for C6: watcher 0 of `sampleWorld` (fd 7, interest
`POLLIN`) is added, its interest changes to `POLLOUT`, and `mod_fd`
updates the host registration to
`fdReg 7 (to_host POLLOUT) = fdReg 7 WL_EVENT_WRITABLE` in place. -/
theorem mod_fd_updates_registration_in_place_witness :
    alookup sampleWorld.handlers 0 = some { fd := 7, eventMask := POLLIN } ∧
    (alookup (wl_backend_mod_fd true
        (aml_set_event_mask (wl_backend_add_fd true true sampleWorld 5 0).1 0 POLLOUT) 0).1.hostRegs
        sampleWorld.nextSrc =
      some (HostReg.fdReg 7 (wl_backend_events_from_poll_events POLLOUT)) ∧
    (wl_backend_mod_fd true
        (aml_set_event_mask (wl_backend_add_fd true true sampleWorld 5 0).1 0 POLLOUT) 0).1.entries =
      (wl_backend_add_fd true true sampleWorld 5 0).1.entries ∧
    (wl_backend_mod_fd true
        (aml_set_event_mask (wl_backend_add_fd true true sampleWorld 5 0).1 0 POLLOUT) 0).1.nextEntry =
      (wl_backend_add_fd true true sampleWorld 5 0).1.nextEntry ∧
    (wl_backend_mod_fd true
        (aml_set_event_mask (wl_backend_add_fd true true sampleWorld 5 0).1 0 POLLOUT) 0).1.nextSrc =
      (wl_backend_add_fd true true sampleWorld 5 0).1.nextSrc ∧
    (wl_backend_mod_fd true
        (aml_set_event_mask (wl_backend_add_fd true true sampleWorld 5 0).1 0 POLLOUT) 0).1.hostRegs.length =
      (wl_backend_add_fd true true sampleWorld 5 0).1.hostRegs.length) :=
  ⟨by decide,
   mod_fd_updates_registration_in_place sampleWorld 5 0 7 POLLIN POLLOUT (by decide)⟩

/-- CLAIM C7: the signal relay invoked for the BridgeEntry `e` of
signal watcher `wid` performs exactly one emission, on `wid` only,
with mask value exactly 0, followed by exactly one dispatch pass of
the inner loop, and returns 0; nothing else in the world changes. -/
theorem on_signal_single_emission (w : World) (signo e wid : Nat)
    (d : event_source_data) (hd : alookup w.entries e = some d)
    (hobj : d.aml_obj = wid) :
    wl_backend_on_signal w signo e =
      ({ w with emits := w.emits ++ [(wid, 0)],
                dispatchCount := w.dispatchCount + 1 }, 0) := by
  simp [wl_backend_on_signal, aml_emit, aml_dispatch, hd, hobj]

/-- Witness for C7: after `add_signal` on signal watcher 1 of
`sampleWorld`, delivering its signal (number 2) yields exactly one
emission `(1, 0)` and one dispatch pass. -/
theorem on_signal_single_emission_witness :
    alookup (wl_backend_add_signal true true sampleWorld 5 1).1.entries 0 =
      some { aml_obj := 1, state := 5, src := some 0 } ∧
    wl_backend_on_signal (wl_backend_add_signal true true sampleWorld 5 1).1 2 0 =
      ({ (wl_backend_add_signal true true sampleWorld 5 1).1 with
          emits := (wl_backend_add_signal true true sampleWorld 5 1).1.emits ++ [(1, 0)],
          dispatchCount :=
            (wl_backend_add_signal true true sampleWorld 5 1).1.dispatchCount + 1 },
        0) :=
  ⟨by decide,
   on_signal_single_emission (wl_backend_add_signal true true sampleWorld 5 1).1
     2 0 1 { aml_obj := 1, state := 5, src := some 0 } (by decide) rfl⟩

end AmlWl
